import Mathlib

/-!
Verification development for the `uc_intg_lmserver` integration driver.

The Python sources under `uc_intg_lmserver/` are shallowly embedded here:

* JSON-ish values flowing between the Lyrion Music Server (LMS) and the
  driver are modelled by `LMS.PyVal`; dictionaries by association lists.
* The media-player attribute snapshot (`LMSMediaPlayer.attributes`) is the
  structure `LMS.Attrs`; `LMS.updateAttributes` embeds
  `LMSMediaPlayer.update_attributes` (lms_media_player.py, lines 255-349)
  as a pure function of the fetched status payload and the artwork
  HTTP response, with Python's sequential mutation and exception
  short-circuiting made explicit by `LMS.stepSeq`.
* The command dispatcher (`LMSMediaPlayer.command`, lines 113-183) is
  `LMS.mediaCommand`; issued JSON-RPC calls are recorded as
  `LMS.GatewayCall` values and the gateway's success/failure behaviour is
  a boolean oracle parameter.
* The remote entity's favorite and sync resolution
  (`LMSRemote._handle_send_command`, lms_remote.py) is
  `LMS.favoriteCommand` / `LMS.syncCommand`.

Modelling notes on Python built-ins: `int(x)` is `LMS.pyInt`,
`int(float(x))` is `LMS.pyFloatInt` (decimal strings with an optional
fractional part; exotic float syntax such as exponents is not modelled),
truthiness is `LMS.pyTruthy`, and `str(x)` is `LMS.pyStr` (exact for
strings, ints and booleans, the only cases the code exercises).
-/

namespace LMS

/-- A Python/JSON value as exchanged with the LMS JSON-RPC endpoint. -/
inductive PyVal where
  | vInt (n : Int)
  | vStr (s : String)
  | vBool (b : Bool)
  | vNone
  | vList (xs : List PyVal)
  | vDict (entries : List (String × PyVal))
deriving Repr

/-- A Python dictionary with string keys, as an association list. -/
abbrev Dict := List (String × PyVal)

/-- `d.get(k)` — `none` when the key is absent. First binding wins. -/
def dget (d : Dict) (k : String) : Option PyVal :=
  match d.find? (fun kv => kv.1 == k) with
  | some kv => some kv.2
  | none => none

/-- Python truthiness (`bool(x)`). -/
def pyTruthy : PyVal → Bool
  | .vInt n => n != 0
  | .vStr s => s != ""
  | .vBool b => b
  | .vNone => false
  | .vList xs => !xs.isEmpty
  | .vDict entries => !entries.isEmpty

/-- Python `x == n` for an integer literal `n` (strings never equal ints). -/
def pyEqInt (v : PyVal) (n : Int) : Bool :=
  match v with
  | .vInt m => m == n
  | .vBool b => (if b then (1 : Int) else 0) == n
  | _ => false

/-- Python `x == s` for a string literal `s`. -/
def pyEqStr (v : PyVal) (s : String) : Bool :=
  match v with
  | .vStr t => t == s
  | _ => false

/-- Python `int(x)`; `none` models a raised `ValueError`/`TypeError`. -/
def pyInt : PyVal → Option Int
  | .vInt n => some n
  | .vBool b => some (if b then 1 else 0)
  | .vStr s => s.toInt?
  | _ => none

/-- Digits to the natural number they denote. -/
def natOfDigits (cs : List Char) : Nat :=
  cs.foldl (fun acc c => acc * 10 + (c.toNat - 48)) 0

/-- Integer part of an unsigned decimal numeral with optional fraction. -/
def parseUnsignedTrunc (cs : List Char) : Option Nat :=
  let ip := cs.takeWhile Char.isDigit
  let rest := cs.dropWhile Char.isDigit
  if ip.isEmpty then none
  else
    match rest with
    | [] => some (natOfDigits ip)
    | '.' :: frac =>
        if !frac.isEmpty && frac.all Char.isDigit then some (natOfDigits ip) else none
    | _ => none

/-- `int(float(s))` for a decimal string: truncation toward zero. -/
def parseFloatTrunc (s : String) : Option Int :=
  match s.data with
  | '-' :: rest => (parseUnsignedTrunc rest).map (fun n => -(n : Int))
  | '+' :: rest => (parseUnsignedTrunc rest).map (fun n => (n : Int))
  | cs => (parseUnsignedTrunc cs).map (fun n => (n : Int))

/-- Python `int(float(x))`; `none` models a raised error. -/
def pyFloatInt : PyVal → Option Int
  | .vInt n => some n
  | .vBool b => some (if b then 1 else 0)
  | .vStr s => parseFloatTrunc s
  | _ => none

/-- Python `str(x)` / f-string formatting for the scalar values the code uses. -/
def pyStr : PyVal → String
  | .vStr s => s
  | .vInt n => toString n
  | .vBool b => if b then "True" else "False"
  | .vNone => "None"
  | .vList _ => "[...]"
  | .vDict _ => "{...}"

/-- `ucapi.media_player.States` values the driver uses, plus the spec's Idle. -/
inductive PState where
  | off
  | on
  | playing
  | paused
  | idle
  | unavailable
  | unknown
deriving Repr, DecidableEq

/-- `ucapi.media_player.RepeatMode`. -/
inductive RMode where
  | off
  | one
  | all
deriving Repr, DecidableEq

/-- `ucapi.StatusCodes` returned by command handlers. -/
inductive StatusCode where
  | ok
  | badRequest
  | notFound
  | notImplemented
  | serverError
deriving Repr, DecidableEq

/-- The media-player attribute snapshot (`self.attributes`). -/
structure Attrs where
  state : PState
  volume : Int
  muted : Bool
  mediaPosition : Int
  mediaDuration : Int
  mediaTitle : PyVal
  mediaArtist : PyVal
  mediaAlbum : PyVal
  mediaImageUrl : String
  repeatMode : RMode
  shuffle : Bool
deriving Repr

/-- Initial attributes from `LMSMediaPlayer.__init__` (lines 63-76). -/
def initAttrs : Attrs where
  state := .unknown
  volume := 0
  muted := false
  mediaPosition := 0
  mediaDuration := 0
  mediaTitle := .vStr ""
  mediaArtist := .vStr ""
  mediaAlbum := .vStr ""
  mediaImageUrl := ""
  repeatMode := .off
  shuffle := false

/-- The status-to-state mapping of `update_attributes` (lines 264-274):
power defaulting to 0, zero power is Off, otherwise mode (defaulting to
"stop") selects playing/paused, anything else On. -/
def mapPlaybackState (d : Dict) : PState :=
  let power := (dget d "power").getD (.vInt 0)
  if pyEqInt power 0 then .off
  else
    let mode := (dget d "mode").getD (.vStr "stop")
    if pyEqStr mode "play" then .playing
    else if pyEqStr mode "pause" then .paused
    else .on

/-- Modelled from the spec: the section 4.2 decision table, which sends
power=0 to Off, mode "play"/"pause"/"stop" to Playing/Paused/On, and any
other mode to Idle. For comparison with `mapPlaybackState` only. -/
def specPlaybackState (d : Dict) : PState :=
  let power := (dget d "power").getD (.vInt 0)
  if pyEqInt power 0 then .off
  else
    let mode := (dget d "mode").getD (.vStr "stop")
    if pyEqStr mode "play" then .playing
    else if pyEqStr mode "pause" then .paused
    else if pyEqStr mode "stop" then .on
    else .idle

/-- Recorded effect against the server: a JSON-RPC request
(`LMSClient.send_command`) or an HTTP GET of artwork. -/
inductive GatewayCall where
  | send (playerId : String) (command : List String)
  | artworkGet (url : String)
deriving Repr, DecidableEq

/-- Errors raised by the gateway or by Python conversions. -/
inductive PyErr where
  | clientError
  | valueError
  | typeError
deriving Repr, DecidableEq

/-- `LMSClient.get_artwork_url` (lms_client.py, lines 144-155). -/
def get_artwork_url (baseUrl : String) (playerId : String) (coverid : Option String) : String :=
  match coverid with
  | some c =>
      if c != "" then baseUrl ++ "/music/" ++ c ++ "/cover.jpg"
      else baseUrl ++ "/music/current/cover.jpg?player=" ++ playerId
  | none => baseUrl ++ "/music/current/cover.jpg?player=" ++ playerId

/-- The base64 alphabet. -/
def b64Chars : List Char :=
  "ABCDEFGHIJKLMNOPQRSTUVWXYZabcdefghijklmnopqrstuvwxyz0123456789+/".data

/-- Character at a 6-bit index of the base64 alphabet. -/
def b64Char (n : Nat) : Char := b64Chars.getD n 'A'

/-- Standard base64 of a byte list, three bytes at a time. -/
def base64Chunks : List Nat → List Char
  | [] => []
  | [a] =>
      let a := a % 256
      [b64Char (a / 4), b64Char (a % 4 * 16), '=', '=']
  | [a, b] =>
      let a := a % 256
      let b := b % 256
      [b64Char (a / 4), b64Char (a % 4 * 16 + b / 16), b64Char (b % 16 * 4), '=']
  | a :: b :: c :: rest =>
      let a' := a % 256
      let b' := b % 256
      let c' := c % 256
      b64Char (a' / 4) :: b64Char (a' % 4 * 16 + b' / 16) ::
        b64Char (b' % 16 * 4 + c' / 64) :: b64Char (c' % 64) :: base64Chunks rest

/-- `base64.b64encode(...).decode("utf-8")`. -/
def base64Encode (bytes : List Nat) : String := String.mk (base64Chunks bytes)

/-- The HTTP response observed when fetching artwork, or a raised error. -/
inductive ArtResp where
  | ok (statusCode : Nat) (contentTypeHeader : Option String) (body : List Nat)
  | exc
deriving Repr

/-- `LMSClient.fetch_artwork_as_base64` (lms_client.py, lines 157-189) as a
function of the observed HTTP response: a 200 yields a base64 data URL with
the Content-Type header defaulting to image/jpeg, anything else yields "". -/
def fetch_artwork_as_base64 (resp : ArtResp) : String :=
  match resp with
  | .ok statusCode contentTypeHeader body =>
      if statusCode == 200 then
        "data:" ++ contentTypeHeader.getD "image/jpeg" ++ ";base64," ++ base64Encode body
      else ""
  | .exc => ""

/-- One mutation step of `update_attributes`: the attributes after the step
together with a flag recording whether the step raised. A raising step keeps
the mutations already applied, as in Python. -/
abbrev Step := Attrs → Attrs × Bool

/-- Sequencing of mutation steps with exception short-circuiting. -/
def stepSeq (f g : Step) : Step := fun a =>
  let r := f a
  if r.2 then r else g r.1

/-- Lines 276-278: `mixer volume`, assigned only when present and non-None;
`int(...)` may raise. -/
def stepVolume (d : Dict) : Step := fun a =>
  match dget d "mixer volume" with
  | none => (a, false)
  | some .vNone => (a, false)
  | some v =>
      match pyInt v with
      | some n => ({ a with volume := n }, false)
      | none => (a, true)

/-- Lines 280-281: `mixer muting` defaulting to 0, by truthiness. -/
def stepMuted (d : Dict) : Step := fun a =>
  ({ a with muted := pyTruthy ((dget d "mixer muting").getD (.vInt 0)) }, false)

/-- Lines 283-289: `playlist repeat` through `int` and the fixed table. -/
def stepRepeat (d : Dict) : Step := fun a =>
  match pyInt ((dget d "playlist repeat").getD (.vInt 0)) with
  | some n =>
      ({ a with repeatMode := if n == 1 then .one else if n == 2 then .all else .off }, false)
  | none => (a, true)

/-- Lines 291-292: `playlist shuffle` through `int`, shuffle iff positive. -/
def stepShuffle (d : Dict) : Step := fun a =>
  match pyInt ((dget d "playlist shuffle").getD (.vInt 0)) with
  | some n => ({ a with shuffle := decide (0 < n) }, false)
  | none => (a, true)

/-- Lines 294-316: track metadata from the head of `playlist_loop`; a truthy
non-list (or a non-dict head) raises; an empty or absent queue clears the
title/artist/album fields. -/
def stepTrack (d : Dict) : Step := fun a =>
  match (dget d "playlist_loop").getD (.vList []) with
  | .vList (.vDict t :: _) =>
      let title := (dget t "title").getD (.vStr "")
      let artist := (dget t "artist").getD .vNone
      let album := (dget t "album").getD .vNone
      ({ a with
          mediaTitle := if pyTruthy title then title else .vStr ""
          mediaArtist := if pyTruthy artist then artist else .vStr ""
          mediaAlbum := if pyTruthy album then album else .vStr "" }, false)
  | .vList (_ :: _) => (a, true)
  | v =>
      if pyTruthy v then (a, true)
      else
        ({ a with mediaTitle := .vStr "", mediaArtist := .vStr "", mediaAlbum := .vStr "" },
          false)

/-- Lines 318-322: `time` through `int(float(...))`, absent becomes 0. -/
def stepTime (d : Dict) : Step := fun a =>
  match dget d "time" with
  | none => ({ a with mediaPosition := 0 }, false)
  | some .vNone => ({ a with mediaPosition := 0 }, false)
  | some v =>
      match pyFloatInt v with
      | some n => ({ a with mediaPosition := n }, false)
      | none => (a, true)

/-- Lines 324-328: `duration` through `int(float(...))`, absent becomes 0. -/
def stepDuration (d : Dict) : Step := fun a =>
  match dget d "duration" with
  | none => ({ a with mediaDuration := 0 }, false)
  | some .vNone => ({ a with mediaDuration := 0 }, false)
  | some v =>
      match pyFloatInt v with
      | some n => ({ a with mediaDuration := n }, false)
      | none => (a, true)

/-- The `coverid` local of `update_attributes`: set from the head track when
the playlist queue is a non-empty list of dicts, otherwise left None. -/
def coveridOf (d : Dict) : Option PyVal :=
  match (dget d "playlist_loop").getD (.vList []) with
  | .vList (.vDict t :: _) => dget t "coverid"
  | _ => none

/-- The mapping portion of `update_attributes` on a successfully fetched
payload: the state decision table followed by the mutation steps in source
order, with Python's exception short-circuiting. -/
def mapOk (d : Dict) (a : Attrs) : Attrs × Bool :=
  stepSeq (stepVolume d)
    (stepSeq (stepMuted d)
      (stepSeq (stepRepeat d)
        (stepSeq (stepShuffle d)
          (stepSeq (stepTrack d)
            (stepSeq (stepTime d) (stepDuration d))))))
    { a with state := mapPlaybackState d }

/-- Result of one `update_attributes` run: the attribute snapshot, whether it
was pushed to the integration API, and whether binary artwork was fetched. -/
structure UpdateResult where
  attrs : Attrs
  published : Bool
  artworkFetched : Bool
deriving Repr

/-- `LMSMediaPlayer.update_attributes` (lines 255-349) as a function of the
status-fetch outcome and the artwork HTTP response. Any raised error is
caught at lines 346-349: the state degrades to Unavailable and the snapshot
is still published; no error propagates out. -/
def updateAttributes (fetch : Except PyErr Dict) (art : ArtResp) (a : Attrs) : UpdateResult :=
  match fetch with
  | .error _ => ⟨{ a with state := .unavailable }, true, false⟩
  | .ok d =>
      match mapOk d a with
      | (a1, true) => ⟨{ a1 with state := .unavailable }, true, false⟩
      | (a1, false) =>
          let fetchArt :=
            match coveridOf d with
            | some v => pyTruthy v
            | none => false
          if fetchArt then
            ⟨{ a1 with mediaImageUrl := fetch_artwork_as_base64 art }, true, true⟩
          else ⟨{ a1 with mediaImageUrl := "" }, true, false⟩

/-- The adaptive interval of `_polling_loop` (lines 239-244). -/
def pollInterval (s : PState) : Nat :=
  if s = .playing then 2 else if s = .paused then 5 else 10

/-- What one iteration of `_polling_loop` observes. -/
inductive IterEvent where
  | fetched (fetch : Except PyErr Dict) (art : ArtResp)
  | cancelled
  | raised

/-- One iteration of `_polling_loop` (lines 234-253): new attributes, seconds
slept afterwards, and whether the loop continues. Cancellation breaks the
loop; any other escaped exception sleeps 10 seconds and continues. -/
def pollIteration (ev : IterEvent) (a : Attrs) : Attrs × Nat × Bool :=
  match ev with
  | .fetched f art =>
      let r := updateAttributes f art a
      (r.attrs, pollInterval r.attrs.state, true)
  | .cancelled => (a, 0, false)
  | .raised => (a, 10, true)

/-- `_deferred_update` (lines 203-206): a 100 ms sleep followed by the same
`update_attributes` path the polling loop uses. -/
def deferredUpdate (fetch : Except PyErr Dict) (art : ArtResp) (a : Attrs) :
    Nat × UpdateResult :=
  (100, updateAttributes fetch art a)

/-! Client operations (lms_client.py): each builds one JSON-RPC call. -/

/-- `LMSClient.set_volume` (lines 215-223): clamp to 0-100, then send. -/
def set_volume (playerId : String) (volume : Int) : GatewayCall :=
  let volume := max 0 (min 100 volume)
  .send playerId ["mixer", "volume", toString volume]

/-- `LMSClient.volume_up` with the default step of 5. -/
def volume_up (playerId : String) : GatewayCall :=
  .send playerId ["mixer", "volume", "+5"]

/-- `LMSClient.volume_down` with the default step of 5. -/
def volume_down (playerId : String) : GatewayCall :=
  .send playerId ["mixer", "volume", "-5"]

/-- `LMSClient.seek`. -/
def seek (playerId : String) (position : Int) : GatewayCall :=
  .send playerId ["time", toString position]

/-- `LMSClient.sync_players`. -/
def sync_players (playerId : String) (targetPlayerId : String) : GatewayCall :=
  .send playerId ["sync", targetPlayerId]

/-- `LMSClient.play_favorite`. -/
def play_favorite (playerId : String) (favoriteId : String) : GatewayCall :=
  .send playerId ["favorites", "playlist", "play", "item_id:" ++ favoriteId]

/-! The media-player command dispatcher (lms_media_player.py, 113-183). -/

/-- Early exits of `command` before any gateway call succeeds completely:
missing parameter, unknown command, or an exception before the first call. -/
inductive Early where
  | bad
  | notImpl
  | raisedBeforeCall
deriving Repr, DecidableEq

/-- The status code each early exit maps to. -/
def earlyToStatus : Early → StatusCode
  | .bad => .badRequest
  | .notImpl => .notImplemented
  | .raisedBeforeCall => .serverError

/-- `params and key in params` followed by `params[key]`: the parameter value
when `params` is a truthy dict containing the key, else `none`. -/
def paramsGet (params : Option Dict) (k : String) : Option PyVal :=
  match params with
  | some d => if d.isEmpty then none else dget d k
  | none => none

/-- The LMS repeat token of `_handle_repeat_command` (lines 185-195). -/
def repeatToken (v : PyVal) : String :=
  if pyEqStr v "OFF" then "0"
  else if pyEqStr v "ONE" then "1"
  else if pyEqStr v "ALL" then "2"
  else "0"

/-- Validation and call planning of `command` (lines 124-173): either an
early exit, or the gateway calls the branch will issue in order. -/
def planCalls (pid : String) (cmd : String) (params : Option Dict) :
    Except Early (List GatewayCall) :=
  if cmd = "on" then .ok [.send pid ["power", "1"], .send pid ["play"]]
  else if cmd = "off" then .ok [.send pid ["power", "0"]]
  else if cmd = "toggle" then .ok [.send pid ["power"]]
  else if cmd = "play_pause" then .ok [.send pid ["pause"]]
  else if cmd = "stop" then .ok [.send pid ["stop"]]
  else if cmd = "previous" then .ok [.send pid ["playlist", "index", "-1"]]
  else if cmd = "next" then .ok [.send pid ["playlist", "index", "+1"]]
  else if cmd = "volume" then
    match paramsGet params "volume" with
    | none => .error .bad
    | some v =>
        match pyInt v with
        | some n => .ok [set_volume pid n]
        | none => .error .raisedBeforeCall
  else if cmd = "volume_up" then .ok [volume_up pid]
  else if cmd = "volume_down" then .ok [volume_down pid]
  else if cmd = "mute_toggle" then .ok [.send pid ["mixer", "muting", "toggle"]]
  else if cmd = "mute" then .ok [.send pid ["mixer", "muting", "1"]]
  else if cmd = "unmute" then .ok [.send pid ["mixer", "muting", "0"]]
  else if cmd = "seek" then
    match paramsGet params "media_position" with
    | none => .error .bad
    | some v =>
        match pyInt v with
        | some n => .ok [seek pid n]
        | none => .error .raisedBeforeCall
  else if cmd = "repeat" then
    match paramsGet params "repeat" with
    | none => .error .bad
    | some v => .ok [.send pid ["playlist", "repeat", repeatToken v]]
  else if cmd = "shuffle" then
    match paramsGet params "shuffle" with
    | none => .error .bad
    | some v => .ok [.send pid ["playlist", "shuffle", if pyTruthy v then "1" else "0"]]
  else .error .notImpl

/-- Run planned calls against a gateway oracle (`true` = call succeeds):
the calls actually issued, and whether all of them succeeded. A failing
call is still issued (it raises on the server round-trip). -/
def runCalls (gw : GatewayCall → Bool) : List GatewayCall → List GatewayCall × Bool
  | [] => ([], true)
  | c :: rest =>
      if gw c then
        let r := runCalls gw rest
        (c :: r.1, r.2)
      else ([c], false)

/-- The commands excluded from the deferred refresh at line 176. -/
def volumeCommandIds : List String := ["volume", "volume_up", "volume_down"]

/-- Outcome of one `command` invocation: status code, gateway calls issued,
number of deferred refresh tasks scheduled, and the attribute snapshot
afterwards (the command path never touches `self.attributes`). -/
structure CmdResult where
  status : StatusCode
  calls : List GatewayCall
  deferredCount : Nat
  attrs : Attrs
deriving Repr

/-- `LMSMediaPlayer.command` (lines 113-183): validate, issue the branch's
gateway calls, convert any raised error to SERVER_ERROR, and on success
schedule one deferred refresh unless the command is a volume command. -/
def mediaCommand (gw : GatewayCall → Bool) (pid : String) (cmd : String)
    (params : Option Dict) (a : Attrs) : CmdResult :=
  match planCalls pid cmd params with
  | .error e => ⟨earlyToStatus e, [], 0, a⟩
  | .ok cs =>
      let r := runCalls gw cs
      if r.2 then
        ⟨.ok, r.1, if volumeCommandIds.contains cmd then 0 else 1, a⟩
      else ⟨.serverError, r.1, 0, a⟩

/-! The remote entity's command resolution (lms_remote.py). -/

/-- Split a character list on a separator, keeping empty groups, as
Python's `str.split("_")` does. -/
def splitOn (sep : Char) : List Char → List (List Char)
  | [] => [[]]
  | c :: rest =>
      let r := splitOn sep rest
      if c = sep then [] :: r
      else
        match r with
        | g :: gs => (c :: g) :: gs
        | [] => [[c]]

/-- Join character groups with a separator (`sep.join(...)`). -/
def joinWith (sep : Char) : List (List Char) → List Char
  | [] => []
  | [g] => g
  | g :: gs => g ++ sep :: joinWith sep gs

/-- `LMSRemote._sanitize_player_name` (lines 120-126): lowercase, replace
non-alphanumerics by underscores, drop empty groups and rejoin (ASCII
case folding; the code's player names are ASCII). -/
def sanitizePlayerName (name : String) : String :=
  let mapped := name.data.map (fun c =>
    let lc := c.toLower
    if lc.isAlphanum then lc else '_')
  String.mk (joinWith '_' ((splitOn '_' mapped).filter (fun g => !g.isEmpty)))

/-- One entry of the remote's `_all_players` list (from the configured
players: stable id and display name). -/
structure PlayerConf where
  player_id : String
  name : String
deriving Repr, DecidableEq

/-- `LMSRemote._get_player_id_by_name` (lines 128-133): linear scan for the
first player whose sanitized display name matches. -/
def getPlayerIdByName (name : String) : List PlayerConf → Option String
  | [] => none
  | p :: rest =>
      if sanitizePlayerName p.name = name then some p.player_id
      else getPlayerIdByName name rest

/-- The `SYNC_`-command branch of `_handle_send_command` (lines 406-414):
resolve the sanitized target name; a falsy lookup result is NOT_FOUND,
otherwise sync by the target's player id. -/
def syncCommand (selfId : String) (targetName : String) (players : List PlayerConf) :
    StatusCode × List GatewayCall :=
  match getPlayerIdByName targetName players with
  | some tid =>
      if tid != "" then (.ok, [sync_players selfId tid]) else (.notFound, [])
  | none => (.notFound, [])

/-- The `favorite_N` branch of `_handle_send_command` (lines 416-438) after
the index has been parsed: 0-based index into the favorites captured at
initialization; out of range is NOT_FOUND, a favorite without a truthy id is
NOT_FOUND, otherwise play by the favorite's id. -/
def favoriteCommand (n : Int) (favs : List Dict) (selfId : String) :
    StatusCode × List GatewayCall :=
  let favNum := n - 1
  if 0 ≤ favNum ∧ favNum < (favs.length : Int) then
    let fav := favs.getD favNum.toNat []
    let favId := (dget fav "id").getD (.vStr "")
    if pyTruthy favId then (.ok, [play_favorite selfId (pyStr favId)])
    else (.notFound, [])
  else (.notFound, [])

/-! Helper lemmas. -/

/-- A non-raising step sequence runs its first step without raising and
continues with the second on the intermediate attributes. -/
lemma stepSeq_err_split {f g : Step} {a : Attrs} (h : (stepSeq f g a).2 = false) :
    (f a).2 = false ∧ stepSeq f g a = g (f a).1 := by
  rcases hf : f a with ⟨a1, b⟩
  cases b
  · constructor
    · rfl
    · unfold stepSeq
      rw [hf]
      rfl
  · exfalso
    unfold stepSeq at h
    rw [hf] at h
    simp at h

/-- `stepMuted` touches only the mute flag. -/
lemma stepMuted_pres (d : Dict) (a : Attrs) :
    (stepMuted d a).1.volume = a.volume ∧ (stepMuted d a).1.mediaPosition = a.mediaPosition ∧
      (stepMuted d a).1.mediaDuration = a.mediaDuration :=
  ⟨rfl, rfl, rfl⟩

/-- `stepRepeat` touches only the repeat mode. -/
lemma stepRepeat_pres (d : Dict) (a : Attrs) :
    (stepRepeat d a).1.volume = a.volume ∧ (stepRepeat d a).1.mediaPosition = a.mediaPosition ∧
      (stepRepeat d a).1.mediaDuration = a.mediaDuration := by
  unfold stepRepeat
  split <;> exact ⟨rfl, rfl, rfl⟩

/-- `stepShuffle` touches only the shuffle flag. -/
lemma stepShuffle_pres (d : Dict) (a : Attrs) :
    (stepShuffle d a).1.volume = a.volume ∧ (stepShuffle d a).1.mediaPosition = a.mediaPosition ∧
      (stepShuffle d a).1.mediaDuration = a.mediaDuration := by
  unfold stepShuffle
  split <;> exact ⟨rfl, rfl, rfl⟩

/-- `stepTrack` touches only the media text fields. -/
lemma stepTrack_pres (d : Dict) (a : Attrs) :
    (stepTrack d a).1.volume = a.volume ∧ (stepTrack d a).1.mediaPosition = a.mediaPosition ∧
      (stepTrack d a).1.mediaDuration = a.mediaDuration := by
  unfold stepTrack
  repeat' split
  all_goals exact ⟨rfl, rfl, rfl⟩

/-- `stepTime` touches only the media position. -/
lemma stepTime_pres (d : Dict) (a : Attrs) :
    (stepTime d a).1.volume = a.volume ∧ (stepTime d a).1.mediaDuration = a.mediaDuration := by
  unfold stepTime
  repeat' split
  all_goals exact ⟨rfl, rfl⟩

/-- `stepDuration` touches only the media duration. -/
lemma stepDuration_pres (d : Dict) (a : Attrs) :
    (stepDuration d a).1.volume = a.volume ∧
      (stepDuration d a).1.mediaPosition = a.mediaPosition := by
  unfold stepDuration
  repeat' split
  all_goals exact ⟨rfl, rfl⟩

/-- An absent `mixer volume` key leaves the attributes untouched. -/
lemma stepVolume_absent {d : Dict} (a : Attrs) (h : dget d "mixer volume" = none) :
    stepVolume d a = (a, false) := by
  unfold stepVolume
  rw [h]

/-- An absent `time` key zeroes the media position without raising. -/
lemma stepTime_absent {d : Dict} (a : Attrs) (h : dget d "time" = none) :
    stepTime d a = ({ a with mediaPosition := 0 }, false) := by
  unfold stepTime
  rw [h]

/-- An absent `duration` key zeroes the media duration without raising. -/
lemma stepDuration_absent {d : Dict} (a : Attrs) (h : dget d "duration" = none) :
    stepDuration d a = ({ a with mediaDuration := 0 }, false) := by
  unfold stepDuration
  rw [h]

/-- On a raise-free mapping run, `update_attributes` only adds the artwork
field on top of the mapped attributes. -/
lemma updateAttributes_ok_fields (d : Dict) (art : ArtResp) (a : Attrs)
    (h : (mapOk d a).2 = false) :
    (updateAttributes (.ok d) art a).attrs.volume = (mapOk d a).1.volume ∧
      (updateAttributes (.ok d) art a).attrs.mediaPosition = (mapOk d a).1.mediaPosition ∧
      (updateAttributes (.ok d) art a).attrs.mediaDuration = (mapOk d a).1.mediaDuration := by
  rcases hm : mapOk d a with ⟨a1, b⟩
  rw [hm] at h
  simp at h
  subst h
  simp only [updateAttributes, hm]
  split <;> exact ⟨rfl, rfl, rfl⟩

/-- On a raise-free run the mapping chain is the plain composition of its
steps, and the volume step does not raise. -/
lemma mapOk_decomp (d : Dict) (a : Attrs) (h : (mapOk d a).2 = false) :
    mapOk d a =
      stepDuration d
        ((stepTime d
          ((stepTrack d
            ((stepShuffle d
              ((stepRepeat d
                ((stepMuted d
                  ((stepVolume d { a with state := mapPlaybackState d }).1)).1)).1)).1)).1)).1) ∧
      (stepVolume d { a with state := mapPlaybackState d }).2 = false := by
  unfold mapOk at h ⊢
  obtain ⟨h1, e1⟩ := stepSeq_err_split h
  rw [e1] at h ⊢
  obtain ⟨h2, e2⟩ := stepSeq_err_split h
  rw [e2] at h ⊢
  obtain ⟨h3, e3⟩ := stepSeq_err_split h
  rw [e3] at h ⊢
  obtain ⟨h4, e4⟩ := stepSeq_err_split h
  rw [e4] at h ⊢
  obtain ⟨h5, e5⟩ := stepSeq_err_split h
  rw [e5] at h ⊢
  obtain ⟨h6, e6⟩ := stepSeq_err_split h
  rw [e6]
  exact ⟨rfl, h1⟩

/-- A successful linear scan returns the stable id of a player whose
sanitized name matches. -/
lemma getPlayerIdByName_some {name : String} {players : List PlayerConf} {tid : String}
    (h : getPlayerIdByName name players = some tid) :
    ∃ p ∈ players, sanitizePlayerName p.name = name ∧ p.player_id = tid := by
  induction players with
  | nil => simp [getPlayerIdByName] at h
  | cons p rest ih =>
      unfold getPlayerIdByName at h
      by_cases hp : sanitizePlayerName p.name = name
      · rw [if_pos hp] at h
        exact ⟨p, by simp, hp, by injection h⟩
      · rw [if_neg hp] at h
        obtain ⟨q, hq, hs, hi⟩ := ih h
        exact ⟨q, by simp [hq], hs, hi⟩

/-- When no sanitized name matches, the linear scan fails. -/
lemma getPlayerIdByName_none {name : String} {players : List PlayerConf}
    (h : ∀ p ∈ players, sanitizePlayerName p.name ≠ name) :
    getPlayerIdByName name players = none := by
  induction players with
  | nil => rfl
  | cons p rest ih =>
      unfold getPlayerIdByName
      rw [if_neg (h p (by simp))]
      exact ih (fun q hq => h q (by simp [hq]))

/-! Claim theorems. -/

/-- C1, counterexample: on the payload `power=1, mode="half"` the code's
status-to-state mapping yields On, while the claim's decision table demands
Idle for a mode other than play/pause/stop; the full update path agrees
with the mapping. -/
theorem c1_state_table_counterexample :
    mapPlaybackState [("power", .vInt 1), ("mode", .vStr "half")] = .on ∧
      specPlaybackState [("power", .vInt 1), ("mode", .vStr "half")] = .idle ∧
      (updateAttributes (.ok [("power", .vInt 1), ("mode", .vStr "half")]) .exc
          initAttrs).attrs.state = .on ∧
      PState.on ≠ PState.idle :=
  ⟨rfl, rfl, rfl, by decide⟩

/-- C1, amended: the mapping follows the table power=0 → Off, mode "play" →
Playing, "pause" → Paused, and any other mode — "stop" included — → On;
there is no Idle outcome. Absent power defaults to 0 (Off) and absent mode
defaults to "stop" (On when powered). -/
theorem c1_state_table_amended (p : Int) (m : String) :
    mapPlaybackState [("power", .vInt p), ("mode", .vStr m)] =
      (if p = 0 then .off
       else if m = "play" then .playing
       else if m = "pause" then .paused
       else .on) ∧
      mapPlaybackState [("mode", .vStr m)] = .off ∧
      mapPlaybackState [("power", .vInt p)] = (if p = 0 then .off else .on) := by
  refine ⟨?_, rfl, ?_⟩ <;>
    simp [mapPlaybackState, dget, List.find?, pyEqInt, pyEqStr]

/-- C2, code-bug evaluation: on a status payload carrying cover id "99" the
media-player update fetches the binary artwork and publishes an inline
base64 data URL, not the `{base_url}/music/99/cover.jpg` reference that the
gateway's URL builder produces. -/
theorem c2_artwork_inline_base64 :
    (updateAttributes
        (.ok [("power", .vInt 1), ("mode", .vStr "play"),
              ("playlist_loop",
                .vList [.vDict [("title", .vStr "A"), ("coverid", .vStr "99")]])])
        (.ok 200 (some "image/jpeg") [72, 105]) initAttrs).artworkFetched = true ∧
      (updateAttributes
        (.ok [("power", .vInt 1), ("mode", .vStr "play"),
              ("playlist_loop",
                .vList [.vDict [("title", .vStr "A"), ("coverid", .vStr "99")]])])
        (.ok 200 (some "image/jpeg") [72, 105]) initAttrs).attrs.mediaImageUrl =
        "data:image/jpeg;base64,SGk=" ∧
      get_artwork_url "http://host:9000" "00:aa" (some "99") =
        "http://host:9000/music/99/cover.jpg" ∧
      (updateAttributes
        (.ok [("power", .vInt 1), ("mode", .vStr "play"),
              ("playlist_loop",
                .vList [.vDict [("title", .vStr "A"), ("coverid", .vStr "99")]])])
        (.ok 200 (some "image/jpeg") [72, 105]) initAttrs).attrs.mediaImageUrl ≠
        get_artwork_url "http://host:9000" "00:aa" (some "99") :=
  ⟨rfl, rfl, rfl, by decide⟩

/-- C4: when the status fetch raises, `update_attributes` returns normally
with the playback state forced to Unavailable, every other attribute kept,
and the degraded snapshot still pushed to the integration API. -/
theorem c4_fetch_error_unavailable (e : PyErr) (art : ArtResp) (a : Attrs) :
    updateAttributes (.error e) art a =
      ⟨{ a with state := .unavailable }, true, false⟩ :=
  rfl

/-- C7: a polling iteration with a completed fetch sleeps 2 seconds when the
resulting state is Playing, 5 when Paused and 10 otherwise, and continues; a
fetch error degrades to Unavailable, sleeps the fixed 10 seconds and
continues; only cancellation stops the loop, any other escaped exception
sleeps 10 seconds and continues. -/
theorem c7_poll_interval_and_backoff (f : Except PyErr Dict) (art : ArtResp)
    (a : Attrs) (e : PyErr) :
    pollIteration (.fetched f art) a =
      ((updateAttributes f art a).attrs,
        (if (updateAttributes f art a).attrs.state = .playing then 2
         else if (updateAttributes f art a).attrs.state = .paused then 5 else 10),
        true) ∧
      pollIteration (.fetched (.error e) art) a =
        ({ a with state := .unavailable }, 10, true) ∧
      pollIteration .cancelled a = (a, 0, false) ∧
      pollIteration .raised a = (a, 10, true) :=
  ⟨rfl, rfl, rfl, rfl⟩

/-- C10: `set_volume` sends exactly the clamp `max 0 (min 100 v)` of its
argument, a value always within 0..100. -/
theorem c10_set_volume_clamps (pid : String) (v : Int) :
    set_volume pid v = .send pid ["mixer", "volume", toString (max 0 (min 100 v))] ∧
      0 ≤ max 0 (min 100 v) ∧ max 0 (min 100 v) ≤ 100 :=
  ⟨rfl, by omega, by omega⟩

/-- C5: each of the four parameter-requiring media-player commands returns
BAD_REQUEST and issues no gateway call when its parameter is missing,
whatever the gateway would have done. -/
theorem c5_missing_param_bad_request (gw : GatewayCall → Bool) (pid : String)
    (params : Option Dict) (a : Attrs) :
    (paramsGet params "volume" = none →
        mediaCommand gw pid "volume" params a = ⟨.badRequest, [], 0, a⟩) ∧
      (paramsGet params "media_position" = none →
        mediaCommand gw pid "seek" params a = ⟨.badRequest, [], 0, a⟩) ∧
      (paramsGet params "repeat" = none →
        mediaCommand gw pid "repeat" params a = ⟨.badRequest, [], 0, a⟩) ∧
      (paramsGet params "shuffle" = none →
        mediaCommand gw pid "shuffle" params a = ⟨.badRequest, [], 0, a⟩) := by
  refine ⟨fun h => ?_, fun h => ?_, fun h => ?_, fun h => ?_⟩ <;>
    simp [mediaCommand, planCalls, h, earlyToStatus]

/-- C5 witness: a volume command with no parameters at all is rejected. -/
theorem c5_missing_param_bad_request_witness :
    paramsGet none "volume" = none ∧
      mediaCommand (fun _ => true) "00:aa" "volume" none initAttrs =
        ⟨.badRequest, [], 0, initAttrs⟩ :=
  ⟨rfl, (c5_missing_param_bad_request (fun _ => true) "00:aa" none initAttrs).1 rfl⟩

/-- C6, counterexample: a successful volume-set command (volume 50 against
an entity whose snapshot holds volume 0) schedules no deferred refresh and
also applies no optimistic local update — the attribute snapshot is
returned unchanged, still at volume 0. -/
theorem c6_volume_no_local_update_counterexample :
    (mediaCommand (fun _ => true) "00:aa" "volume" (some [("volume", .vInt 50)])
        initAttrs).status = .ok ∧
      (mediaCommand (fun _ => true) "00:aa" "volume" (some [("volume", .vInt 50)])
        initAttrs).deferredCount = 0 ∧
      (mediaCommand (fun _ => true) "00:aa" "volume" (some [("volume", .vInt 50)])
        initAttrs).attrs = initAttrs ∧
      initAttrs.volume = 0 ∧
      (mediaCommand (fun _ => true) "00:aa" "volume" (some [("volume", .vInt 50)])
        initAttrs).attrs.volume ≠ 50 :=
  ⟨rfl, rfl, rfl, rfl, by decide⟩

/-- C6, amended: every successful command schedules exactly one deferred
refresh except the volume commands (set/up/down), which schedule none; the
command path never changes the attribute snapshot (no optimistic local
update — the next poll picks the change up), and the deferred refresh is a
100 ms delay followed by the same `update_attributes` path the poller uses. -/
theorem c6_deferred_refresh_amended (gw : GatewayCall → Bool) (pid : String)
    (cmd : String) (params : Option Dict) (a : Attrs) :
    ((mediaCommand gw pid cmd params a).status = .ok →
        (mediaCommand gw pid cmd params a).deferredCount =
            (if volumeCommandIds.contains cmd then 0 else 1) ∧
          (mediaCommand gw pid cmd params a).attrs = a) ∧
      (∀ (f : Except PyErr Dict) (art : ArtResp) (b : Attrs),
        deferredUpdate f art b = (100, updateAttributes f art b)) := by
  constructor
  · intro hok
    rcases hp : planCalls pid cmd params with e | cs
    · rcases e <;> simp [mediaCommand, hp, earlyToStatus] at hok
    · rcases hr : runCalls gw cs with ⟨issued, okb⟩
      cases okb
      · simp [mediaCommand, hp, hr] at hok
      · simp [mediaCommand, hp, hr]
  · intro f art b
    rfl

/-- C6 witness: a successful stop command schedules exactly one deferred
refresh and leaves the snapshot untouched. -/
theorem c6_deferred_refresh_amended_witness :
    (mediaCommand (fun _ => true) "00:aa" "stop" none initAttrs).status = .ok ∧
      (mediaCommand (fun _ => true) "00:aa" "stop" none initAttrs).deferredCount = 1 ∧
      (mediaCommand (fun _ => true) "00:aa" "stop" none initAttrs).attrs = initAttrs := by
  have h := (c6_deferred_refresh_amended (fun _ => true) "00:aa" "stop" none initAttrs).1 rfl
  exact ⟨rfl, h.1, h.2⟩

/-- C8: a favorite index that is not positive or exceeds the captured
favorite list yields NOT_FOUND with no gateway call; an in-range index whose
favorite carries a truthy id plays that favorite by its id. -/
theorem c8_favorite_resolution (n : Int) (favs : List Dict) (selfId : String) :
    ((n ≤ 0 ∨ (favs.length : Int) < n) →
        favoriteCommand n favs selfId = (.notFound, [])) ∧
      (1 ≤ n → n ≤ (favs.length : Int) →
        pyTruthy ((dget (favs.getD (n - 1).toNat []) "id").getD (.vStr "")) = true →
        favoriteCommand n favs selfId =
          (.ok,
            [play_favorite selfId
              (pyStr ((dget (favs.getD (n - 1).toNat []) "id").getD (.vStr "")))])) := by
  constructor
  · intro h
    unfold favoriteCommand
    rw [if_neg (by omega)]
  · intro h1 h2 htr
    unfold favoriteCommand
    rw [if_pos (by omega)]
    simp at htr ⊢
    simp [htr]

/-- C8 witness: `favorite_3` against two captured favorites is NOT_FOUND,
while `favorite_1` plays the first favorite by its id. -/
theorem c8_favorite_resolution_witness :
    favoriteCommand 3 [[("id", .vStr "a.1")], [("id", .vStr "b.2")]] "00:aa" =
        (.notFound, []) ∧
      favoriteCommand 1 [[("id", .vStr "a.1")], [("id", .vStr "b.2")]] "00:aa" =
        (.ok, [.send "00:aa" ["favorites", "playlist", "play", "item_id:a.1"]]) := by
  constructor
  · exact (c8_favorite_resolution 3 [[("id", .vStr "a.1")], [("id", .vStr "b.2")]]
      "00:aa").1 (by decide)
  · exact (c8_favorite_resolution 1 [[("id", .vStr "a.1")], [("id", .vStr "b.2")]]
      "00:aa").2 (by decide) (by decide) (by decide)

/-- C9: a sync target whose sanitized name matches no known player yields
NOT_FOUND with no gateway call; a resolved target is synced by its stable
player id, which belongs to a known player whose sanitized display name is
the target — the display name itself is never sent. -/
theorem c9_sync_resolution (selfId : String) (targetName : String)
    (players : List PlayerConf) :
    ((∀ p ∈ players, sanitizePlayerName p.name ≠ targetName) →
        syncCommand selfId targetName players = (.notFound, [])) ∧
      (∀ tid, getPlayerIdByName targetName players = some tid → tid ≠ "" →
        syncCommand selfId targetName players = (.ok, [.send selfId ["sync", tid]]) ∧
          ∃ p ∈ players, sanitizePlayerName p.name = targetName ∧ p.player_id = tid) := by
  constructor
  · intro h
    unfold syncCommand
    rw [getPlayerIdByName_none h]
  · intro tid hsome hne
    constructor
    · unfold syncCommand
      rw [hsome]
      simp [sync_players, hne]
    · exact getPlayerIdByName_some hsome

/-- C9 witness: against players Kitchen Speaker and Bedroom, target
"garage" is NOT_FOUND with no call, and target "kitchen_speaker" syncs by
the kitchen player's id. -/
theorem c9_sync_resolution_witness :
    syncCommand "00:self" "garage" [⟨"00:aa", "Kitchen Speaker"⟩, ⟨"00:bb", "Bedroom"⟩] =
        (.notFound, []) ∧
      syncCommand "00:self" "kitchen_speaker"
          [⟨"00:aa", "Kitchen Speaker"⟩, ⟨"00:bb", "Bedroom"⟩] =
        (.ok, [.send "00:self" ["sync", "00:aa"]]) := by
  constructor
  · exact (c9_sync_resolution "00:self" "garage"
      [⟨"00:aa", "Kitchen Speaker"⟩, ⟨"00:bb", "Bedroom"⟩]).1 (by decide)
  · exact ((c9_sync_resolution "00:self" "kitchen_speaker"
      [⟨"00:aa", "Kitchen Speaker"⟩, ⟨"00:bb", "Bedroom"⟩]).2 "00:aa" rfl
      (by decide)).1

/-- C3, counterexample: a payload whose `time` field is the non-numeric
string "abc" makes `int(float(time))` raise, and the update is diverted into
the Unavailable error branch instead of storing a zero. -/
theorem c3_nonnumeric_diverts_counterexample :
    (updateAttributes (.ok [("power", .vInt 1), ("mode", .vStr "play"),
        ("time", .vStr "abc")]) .exc initAttrs).attrs.state = .unavailable ∧
      (updateAttributes (.ok [("power", .vInt 1), ("mode", .vStr "play"),
        ("time", .vStr "abc")]) .exc initAttrs).attrs.mediaPosition = 0 ∧
      (mapOk [("power", .vInt 1), ("mode", .vStr "play"), ("time", .vStr "abc")]
        initAttrs).2 = true :=
  ⟨rfl, rfl, rfl⟩

/-- C3, amended: on a mapping run that raises nowhere, absent `time` and
`duration` become 0 and an absent `mixer volume` keeps the previous volume
(not zero); but a field value whose conversion raises diverts the update
into the Unavailable branch — the degraded snapshot is still published and
the error never propagates out of `update_attributes`. -/
theorem c3_numeric_parsing_amended (d : Dict) (art : ArtResp) (a : Attrs) :
    ((mapOk d a).2 = false →
        (dget d "time" = none →
          (updateAttributes (.ok d) art a).attrs.mediaPosition = 0) ∧
        (dget d "duration" = none →
          (updateAttributes (.ok d) art a).attrs.mediaDuration = 0) ∧
        (dget d "mixer volume" = none →
          (updateAttributes (.ok d) art a).attrs.volume = a.volume)) ∧
      ((mapOk d a).2 = true →
        updateAttributes (.ok d) art a =
          ⟨{ (mapOk d a).1 with state := .unavailable }, true, false⟩) := by
  constructor
  · intro hfl
    obtain ⟨hchain, _⟩ := mapOk_decomp d a hfl
    obtain ⟨hvol, hpos, hdur⟩ := updateAttributes_ok_fields d art a hfl
    refine ⟨fun htime => ?_, fun hdura => ?_, fun hvola => ?_⟩
    · rw [hpos, hchain, (stepDuration_pres d _).2, stepTime_absent _ htime]
    · rw [hdur, hchain, stepDuration_absent _ hdura]
    · rw [hvol, hchain, (stepDuration_pres d _).1, (stepTime_pres d _).1,
        (stepTrack_pres d _).1, (stepShuffle_pres d _).1, (stepRepeat_pres d _).1,
        (stepMuted_pres d _).1, stepVolume_absent _ hvola]
  · intro htr
    rcases hm : mapOk d a with ⟨a1, b⟩
    rw [hm] at htr
    simp at htr
    subst htr
    simp only [updateAttributes, hm]

/-- C3 witness: on a payload with no numeric fields at all the position and
duration become 0 while the volume keeps its previous value 7. -/
theorem c3_numeric_parsing_amended_witness :
    (mapOk [("power", .vInt 1)] { initAttrs with volume := 7 }).2 = false ∧
      (updateAttributes (.ok [("power", .vInt 1)]) .exc
        { initAttrs with volume := 7 }).attrs.mediaPosition = 0 ∧
      (updateAttributes (.ok [("power", .vInt 1)]) .exc
        { initAttrs with volume := 7 }).attrs.mediaDuration = 0 ∧
      (updateAttributes (.ok [("power", .vInt 1)]) .exc
        { initAttrs with volume := 7 }).attrs.volume = 7 := by
  have h :=
    (c3_numeric_parsing_amended [("power", .vInt 1)] .exc
      { initAttrs with volume := 7 }).1 rfl
  exact ⟨rfl, h.1 rfl, h.2.1 rfl, h.2.2 rfl⟩

end LMS
